import Mathlib

/-!
Verification of the `philip` bridge (src/main.py, src/modules/discord_bridge.py).

The Python source is shallowly embedded: each Python function that a claim
depends on becomes a Lean definition with the same name, with collaborator
effects (HTTP calls, matrix SDK calls, sqlite) abstracted into explicit
environment records that carry the collaborators' responses.  Python dicts
become association lists, Python floats become rationals, raising dict
indexing becomes `Except.error "KeyError"`.
-/

namespace Philip

/-- Association-list model of a Python `dict` lookup (`m.get(k)` / `k in m`). -/
def dictGet {α β : Type} [DecidableEq α] : List (α × β) → α → Option β
  | [], _ => none
  | e :: m, k => if e.1 = k then some e.2 else dictGet m k

/-- Association-list model of Python `del m[k]` (the bridge only deletes keys
it has just checked for membership). -/
def dictDel {α β : Type} [DecidableEq α] : List (α × β) → α → List (α × β)
  | [], _ => []
  | e :: m, k => if e.1 = k then dictDel m k else e :: dictDel m k

/-- Association-list model of Python `m[k] = v` (insert-or-overwrite; the
bridge never iterates these dicts, so iteration order is irrelevant). -/
def dictSet {α β : Type} [DecidableEq α] (m : List (α × β)) (k : α) (v : β) : List (α × β) :=
  (k, v) :: dictDel m k

theorem dictGet_del_self {α β : Type} [DecidableEq α] (m : List (α × β)) (k : α) :
    dictGet (dictDel m k) k = none := by
  induction m with
  | nil => rfl
  | cons e m ih =>
    by_cases h : e.1 = k
    · simpa [dictDel, h] using ih
    · simpa [dictGet, dictDel, h] using ih

theorem dictGet_del_ne {α β : Type} [DecidableEq α] (m : List (α × β)) (k k' : α)
    (h : k' ≠ k) : dictGet (dictDel m k) k' = dictGet m k' := by
  have hk : ¬ (k = k') := fun hk => h hk.symm
  induction m with
  | nil => rfl
  | cons e m ih =>
    by_cases he : e.1 = k
    · simpa [dictGet, dictDel, he, hk] using ih
    · by_cases he' : e.1 = k'
      · simp [dictGet, dictDel, he, he', h]
      · simpa [dictGet, dictDel, he, he'] using ih

theorem dictGet_set_self {α β : Type} [DecidableEq α] (m : List (α × β)) (k : α) (v : β) :
    dictGet (dictSet m k v) k = some v := by
  simp [dictGet, dictSet]

theorem dictGet_set_ne {α β : Type} [DecidableEq α] (m : List (α × β)) (k k' : α) (v : β)
    (h : k' ≠ k) : dictGet (dictSet m k v) k' = dictGet m k' := by
  have hk : ¬ (k = k') := fun hk => h hk.symm
  simpa [dictGet, dictSet, hk] using dictGet_del_ne m k k' h

/-! ## src/main.py — `KumaThread` (uptime pinger backoff) -/

/-- Embeds `KumaThread.calculate_backoff` (src/main.py lines 26-29):
`t = (2 * 2 ** self.retries) + random.uniform(0, 1)` followed by
`return min(0, max(self.interval, t))`.  The jitter drawn from
`random.uniform(0, 1)` is passed explicitly. -/
def calculate_backoff (interval : ℚ) (retries : ℕ) (jitter : ℚ) : ℚ :=
  min 0 (max interval ((2 * 2 ^ retries) + jitter))

/-- The delay formula the spec requires:
`delay = min(interval, 2 * 2 ** retries + jitter)`. -/
def spec_backoff (interval : ℚ) (retries : ℕ) (jitter : ℚ) : ℚ :=
  min interval ((2 * 2 ^ retries) + jitter)

/-- Embeds one iteration of `KumaThread.run` (src/main.py lines 31-47) as far
as the retry counter is concerned: `self.retries += 1` before the request; on
`httpx.HTTPError` sleep `calculate_backoff()` and continue, otherwise reset
`self.retries = 0`.  Returns the new retry counter and the sleep performed. -/
def kuma_run_cycle (interval : ℚ) (retries : ℕ) (jitter : ℚ) (http_error : Bool) :
    ℕ × Option ℚ :=
  let retries' := retries + 1
  if http_error then (retries', some (calculate_backoff interval retries' jitter))
  else (0, none)

/-! ## src/modules/discord_bridge.py — data model -/

/-- Embeds `MessagePayload.MessageAttachmentPayload` (discord_bridge.py lines 43-51). -/
structure MessageAttachmentPayload where
  url : String
  proxy_url : String
  filename : String
  size : ℕ
  width : Option ℕ
  height : Option ℕ
  content_type : String
deriving DecidableEq

/-- Embeds `MessagePayload` (discord_bridge.py lines 42-62).  The recursive
`reply_to` payload is represented by the only part the bridge reads from it,
`reply_to.message_id` (line 377). -/
structure MessagePayload where
  event_type : String
  message_id : ℕ
  author : String
  is_automated : Bool
  avatar : String
  content : String
  clean_content : String
  «at» : ℚ
  attachments : List MessageAttachmentPayload
  reply_to : Option ℕ
deriving DecidableEq

/-- The projection of `self.last_message` that `should_prepend_username`
reads.  In the source `last_message` holds either a `MessagePayload` or a
`FakeMessagePayload` (lines 37-40); both expose `author` and `at`. -/
structure LastMessage where
  author : String
  «at» : ℚ
deriving DecidableEq

/-- The bridge's correlation state (discord_bridge.py lines 88, 100-101):
`self.discord_to_matrix : dict[int, str]`, `self.matrix_to_discord :
dict[str, int]` and `self.last_message`. -/
structure BridgeState where
  discord_to_matrix : List (ℕ × String)
  matrix_to_discord : List (String × ℕ)
  last_message : Option LastMessage
deriving DecidableEq

def bridge_state_empty : BridgeState :=
  { discord_to_matrix := [], matrix_to_discord := [], last_message := none }

/-! ## Identity-store operations as the source performs them -/

/-- Spec operation `resolve_local(remote_id)`: lookup in
`self.discord_to_matrix` (e.g. line 378). -/
def resolve_local (s : BridgeState) (remote_id : ℕ) : Option String :=
  dictGet s.discord_to_matrix remote_id

/-- Spec operation `resolve_remote(local_id)`: lookup in
`self.matrix_to_discord` (e.g. line 558). -/
def resolve_remote (s : BridgeState) (local_id : String) : Option ℕ :=
  dictGet s.matrix_to_discord local_id

/-- `self.discord_to_matrix[payload.message_id] = root.event_id`
(discord_bridge.py line 430). -/
def record_inbound (s : BridgeState) (remote_id : ℕ) (local_id : String) : BridgeState :=
  { s with discord_to_matrix := dictSet s.discord_to_matrix remote_id local_id }

/-- `self.matrix_to_discord[message.event_id] = response.json()["id"]`
(discord_bridge.py lines 518 and 658). -/
def record_outbound (s : BridgeState) (local_id : String) (remote_id : ℕ) : BridgeState :=
  { s with matrix_to_discord := dictSet s.matrix_to_discord local_id remote_id }

/-- `del self.discord_to_matrix[message_id]` (discord_bridge.py line 533). -/
def forget_inbound (s : BridgeState) (remote_id : ℕ) : BridgeState :=
  { s with discord_to_matrix := dictDel s.discord_to_matrix remote_id }

/-- `del self.matrix_to_discord[event_id]` (discord_bridge.py line 526). -/
def forget_outbound (s : BridgeState) (local_id : String) : BridgeState :=
  { s with matrix_to_discord := dictDel s.matrix_to_discord local_id }

/-! ## Content renderer -/

/-- Embeds `DiscordBridge.should_prepend_username` (discord_bridge.py lines
265-276): return `False` only when a previous message exists, it is less
than 300 seconds old, it has the same author, and the current payload has
(truthy, i.e. non-empty) content; otherwise return `True`. -/
def should_prepend_username (last_message : Option LastMessage) (payload : MessagePayload) :
    Bool :=
  match last_message with
  | some last =>
    if payload.«at» - last.«at» < 300 then
      if payload.author = last.author then
        if payload.content ≠ "" then false
        else true
      else true
    else true
  | none => true

/-- The conjunction of conditions (a)-(d) quoted by the claim and the spec
(§4.3): a previous message exists, it is under the 300 s grouping window,
same author, and the current message has non-empty text content. -/
def author_grouping_conditions (last_message : Option LastMessage) (payload : MessagePayload) :
    Bool :=
  match last_message with
  | none => false
  | some last =>
    decide (payload.«at» - last.«at» < 300) && decide (payload.author = last.author)
      && decide (payload.content ≠ "")

/-- Result of `DiscordBridge.generate_matrix_content`: the rich content, the
plain fallback body, and `included_author`. -/
structure RenderedContent where
  new_content : String
  body : String
  included_author : Bool
deriving DecidableEq

/-- Embeds `DiscordBridge.generate_matrix_content` (discord_bridge.py lines
307-336).  Collaborator results are passed explicitly: `md_to_html` stands
for `self.bot._markdown_to_html` composed with the strikethrough regex
post-pass (lines 324-330), and `avatar_mxc` is the result of
`self.get_image_from_cache(payload.avatar, make_round=True)` (line 313).
The `force_author` parameter exists in the source signature but is unused by
its body. -/
def generate_matrix_content (md_to_html : String → String) (avatar_mxc : Option String)
    (last_message : Option LastMessage) (payload : MessagePayload)
    (_force_author : Option Bool) : RenderedContent :=
  if payload.content ≠ "" then
    let prepend := should_prepend_username last_message payload
    let avatar : String :=
      if prepend then
        match avatar_mxc with
        | some a => "<img src=\"" ++ a ++ "\" width=\"16px\" height=\"16px\" alt=\"[👤]\"> "
        | none => ""
      else ""
    let header := if prepend then "**" ++ avatar ++ payload.author ++ ":**\n" else ""
    { new_content := md_to_html (header ++ payload.clean_content)
      body := "**" ++ payload.author ++ ":**\n" ++ payload.clean_content
      included_author := prepend }
  else if payload.attachments ≠ [] then
    let s := "@" ++ payload.author ++ " sent " ++ toString payload.attachments.length
      ++ " attachments."
    { new_content := s, body := s, included_author := false }
  else
    let s := "@" ++ payload.author ++ " sent no content."
    { new_content := s, body := s, included_author := false }

/-! ## Stream frame processing (`poll_loop`) -/

/-- Collaborator responses for one `poll_loop` frame: whether
`self.bot.send_message` succeeds (it raises `niobot.MessageException`
otherwise, line 432) and the event id of the newly sent root message. -/
structure PollEnv where
  send_ok : Bool
  new_event_id : String
deriving DecidableEq

/-- Embeds `DiscordBridge.redact_matrix_message` (discord_bridge.py lines
528-534): if the id is tracked, redact the counterpart and delete the
mapping; otherwise do nothing. -/
def redact_matrix_message (s : BridgeState) (message_id : ℕ) : BridgeState :=
  match dictGet s.discord_to_matrix message_id with
  | some _ => { s with discord_to_matrix := dictDel s.discord_to_matrix message_id }
  | none => s

/-- Embeds the per-frame body of `DiscordBridge.poll_loop` (discord_bridge.py
lines 353-505) after JSON decoding and payload validation, with collaborator
calls (`room_get_event`, `edit_matrix_message`, `send_message`, attachment
downloads) abstracted into `PollEnv`.  The raising dict index
`self.discord_to_matrix[payload.message_id]` on the `edit` path (line 392)
is modelled as `Except.error "KeyError"`; reply resolution (lines 375-382),
the tracked-edit collaborator calls and attachment processing do not touch
the correlation state. -/
def poll_loop_step (env : PollEnv) (s : BridgeState) (p : MessagePayload) :
    Except String BridgeState :=
  if p.author = "Jimmy Savile#3762" then .ok s
  else if p.is_automated then .ok s
  else if p.event_type = "redact" then
    .ok (redact_matrix_message s p.message_id)
  else if p.event_type = "edit" then
    match dictGet s.discord_to_matrix p.message_id with
    | none => .error "KeyError"
    | some _ => .ok s
  else if p.event_type ≠ "create" then .ok s
  else if env.send_ok then
    .ok { record_inbound s p.message_id env.new_event_id with
          last_message := some { author := p.author, «at» := p.«at» } }
  else .ok s

/-! ## Python string helpers -/

/-- Python slicing `s[:n]` on a `str` (a sequence of code points). -/
def strTake (s : String) (n : ℕ) : String :=
  ⟨s.data.take n⟩

/-- Python `s.startswith("mxc://")` (discord_bridge.py line 438). -/
def starts_with_mxc (url : String) : Bool :=
  decide (url.data.take 6 = "mxc://".data)

/-- Python truthiness filter for an optional string: `None` and `""` are
falsy, used to model `data.get(...) or ...` / `if data.get(...):`. -/
def truthy_str : Option String → Option String
  | some s => if s = "" then none else some s
  | none => none

/-! ## Local → remote redaction (`real_on_redaction` and helpers) -/

/-- An HTTP call made against the configured webhook URL. -/
inductive WebhookCall
  | patch (message_id : ℕ) (content : String)
  | delete (message_id : ℕ)
deriving DecidableEq

/-- The fields of `nio.RedactionEvent` the bridge reads: the redacted event
id, the redaction's own event id and the optional reason. -/
structure RedactionEvent where
  redacts : String
  event_id : String
  reason : Option String
deriving DecidableEq

/-- Embeds `DiscordBridge.edit_webhook_message` (discord_bridge.py lines
507-519): PATCH the counterpart of `original_event_id` with the new content,
then alias `new_event_id` to the same discord message id.  The raising dict
index on an untracked `original_event_id` is modelled as `Except.error`; in
the source every caller checks membership first. -/
def edit_webhook_message (s : BridgeState) (new_content : String)
    (original_event_id new_event_id : String) :
    Except String (BridgeState × List WebhookCall) :=
  match dictGet s.matrix_to_discord original_event_id with
  | none => .error "KeyError"
  | some discord_id =>
    .ok ({ s with matrix_to_discord := dictSet s.matrix_to_discord new_event_id discord_id },
      [WebhookCall.patch discord_id new_content])

/-- Embeds `DiscordBridge.redact_webhook_message` (discord_bridge.py lines
521-526): DELETE the counterpart, then `del self.matrix_to_discord[event_id]`. -/
def redact_webhook_message (s : BridgeState) (event_id : String) :
    Except String (BridgeState × List WebhookCall) :=
  match dictGet s.matrix_to_discord event_id with
  | none => .error "KeyError"
  | some discord_id =>
    .ok ({ s with matrix_to_discord := dictDel s.matrix_to_discord event_id },
      [WebhookCall.delete discord_id])

/-- The notice text built on the reason path of `real_on_redaction`
(discord_bridge.py line 565): `f"*Message was redacted: {redaction.reason[:1900]}*"`. -/
def redaction_notice (reason : String) : String :=
  "*Message was redacted: " ++ strTake reason 1900 ++ "*"

/-- Embeds `DiscordBridge.real_on_redaction` (discord_bridge.py lines
557-573): if the redacted event is tracked, a truthy (non-empty) reason
leads to `edit_webhook_message` with the bounded notice, otherwise to
`redact_webhook_message`; an untracked redaction is ignored. -/
def real_on_redaction (s : BridgeState) (r : RedactionEvent) :
    Except String (BridgeState × List WebhookCall) :=
  if (dictGet s.matrix_to_discord r.redacts).isSome then
    match r.reason with
    | some reason =>
      if reason ≠ "" then
        edit_webhook_message s (redaction_notice reason) r.redacts r.event_id
      else redact_webhook_message s r.redacts
    | none => redact_webhook_message s r.redacts
  else .ok (s, [])

/-! ## Local → remote message dispatch (`real_on_message`, lines 623-683) -/

/-- The webhook JSON body built in `real_on_message` (discord_bridge.py
lines 642-648): `{"content": ..., "username": payload.sender[:32], ...}`
plus `avatar_url` when an avatar was resolved. -/
structure WebhookBody where
  content : String
  username : String
  avatar_url : Option String
deriving DecidableEq

def webhook_body (message : String) (sender : String) (avatar : Option String) : WebhookBody :=
  { content := message, username := strTake sender 32, avatar_url := avatar }

/-- Collaborator responses for one outbound dispatch: the configured webhook
URL (`self.webhook_url`), the `webhook_wait` config entry
(`self.config.get("webhook_wait")`), the webhook POST's status and response
id, and the fallback POST's status and error detail. -/
structure DispatchEnv where
  webhook_url : Option String
  webhook_wait : Option Bool
  webhook_status : ℕ
  webhook_response_id : ℕ
  fallback_status : ℕ
  fallback_detail : String
deriving DecidableEq

/-- How one outbound dispatch ended. -/
inductive DispatchOutcome
  | webhook_sent
  | too_long
  | fallback_400_other
  | fallback_failed
  | fallback_sent
deriving DecidableEq

/-- `response.status_code in range(200, 300)` (discord_bridge.py line 654). -/
def in_2xx (status : ℕ) : Bool :=
  200 ≤ status && status < 300

/-- Embeds the fallback branch of `real_on_message` (discord_bridge.py lines
666-683): POST to the bridge API; 400 with detail `"Message too long."`
earns a printer reaction, any other non-201 a cross-mark reaction, 201 is
success.  No branch touches the correlation state. -/
def dispatch_fallback (env : DispatchEnv) (s : BridgeState) : BridgeState × DispatchOutcome :=
  if env.fallback_status = 400 then
    if env.fallback_detail = "Message too long." then (s, .too_long)
    else (s, .fallback_400_other)
  else if env.fallback_status ≠ 201 then (s, .fallback_failed)
  else (s, .fallback_sent)

/-- Embeds the outbound delivery of `real_on_message` (discord_bridge.py
lines 623-683).  With a configured webhook URL the webhook POST is tried
first; on a 2xx response `self.last_message` is set and — only when
`self.config.get("webhook_wait") is True` — the identity mapping
`matrix_to_discord[event_id] = response.json()["id"]` is recorded (lines
654-659).  On a non-2xx webhook response, or without a webhook URL, the
fallback branch runs. -/
def dispatch_outbound (env : DispatchEnv) (s : BridgeState) (event_id : String)
    (sender : String) (now : ℚ) : BridgeState × DispatchOutcome :=
  if env.webhook_url.isSome then
    if in_2xx env.webhook_status then
      let s1 := { s with last_message := some { author := sender, «at» := now } }
      if env.webhook_wait = some true then
        ({ s1 with matrix_to_discord :=
            dictSet s1.matrix_to_discord event_id env.webhook_response_id },
          .webhook_sent)
      else (s1, .webhook_sent)
    else dispatch_fallback env s
  else dispatch_fallback env s

/-- The caller-side fallback in `real_on_message` (discord_bridge.py lines
604-607): `payload.sender` is replaced by the fetched discord display name
only when `get_discord_user` returned data, otherwise the natively-known
sender is kept. -/
def resolve_outbound_sender (native_sender : String) (username : Option String) : String :=
  match username with
  | some u => u
  | none => native_sender

/-! ## Avatar/asset cache (`get_image_from_cache`) and attachment downloads -/

/-- Collaborator responses for one cache-miss fill: the status of the HTTP
GET for the image and the mxc URL produced by uploading the downloaded
file. -/
structure CacheEnv where
  fetch_status : ℕ
  uploaded_mxc : String
deriving DecidableEq

/-- Embeds `DiscordBridge.get_image_from_cache` (discord_bridge.py lines
216-263).  The sqlite table `image_cache (http_url PRIMARY KEY, mxc_url)` is
the association list; a present row is returned with no network GET, an
absent row triggers one GET (status in `CacheEnv`), and only a 200 response
leads to an upload plus `INSERT`.  Returns the new cache, the resolved mxc
URL, and the number of network GETs performed against `http`. -/
def get_image_from_cache (env : CacheEnv) (image_cache : List (String × String))
    (http : String) : List (String × String) × Option String × ℕ :=
  match dictGet image_cache http with
  | some mxc => (image_cache, some mxc, 0)
  | none =>
    if env.fetch_status ≠ 200 then (image_cache, none, 1)
    else (dictSet image_cache http env.uploaded_mxc, some env.uploaded_mxc, 1)

/-- The number of network GETs that the attachment loop of `poll_loop`
(discord_bridge.py lines 436-461) performs against `attachment.url`: zero
for an `mxc://` reference (sent directly, line 438), otherwise exactly one
(`response = await client.get(attachment.url)`, line 452).  The loop never
consults `image_cache`; the parameter is present to state that the count is
independent of the cache. -/
def attachment_url_gets (_image_cache : List (String × String))
    (attachment : MessageAttachmentPayload) : ℕ :=
  if starts_with_mxc attachment.url then 0 else 1

/-! ## Remote-user identity lookup (`get_discord_user`) -/

/-- A `self.bind_cache` entry as documented by `get_discord_user`:
`{"username": ..., "avatar": ..., "expires": time.time() + 86400}`. -/
structure UserCacheEntry where
  username : String
  avatar : Option String
  expires : ℚ
deriving DecidableEq

/-- Collaborator response for the discord member/user GET performed by
`get_discord_user`: the HTTP status and the JSON fields the function reads
(`data.get("nick")`, `user_data["username"]`, `data.get("avatar")`,
`user_data.get("avatar")`). -/
structure UserFetchEnv where
  status : ℕ
  nick : Option String
  user_username : String
  member_avatar : Option String
  user_avatar : Option String
deriving DecidableEq

/-- `AVATAR_URL = "https://cdn.discordapp.com/avatars/%d/%s.webp?size=256"`
(discord_bridge.py line 183). -/
def AVATAR_URL (user_id : ℕ) (avatar_hash : String) : String :=
  "https://cdn.discordapp.com/avatars/" ++ toString user_id ++ "/" ++ avatar_hash
    ++ ".webp?size=256"

/-- The remote-fetch branch of `get_discord_user` (discord_bridge.py lines
183-200): on a 200 response build the identity dict — display name is
`data.get("nick") or user_data["username"]`, avatar prefers the member
avatar hash over the user avatar hash — and return it.  Note the built
entry is returned but `self.bind_cache` is NOT assigned to.  On any other
status the function falls through and returns `None`.  Returns the (new)
cache, the result and the number of HTTP requests performed. -/
def fetch_discord_user (env : UserFetchEnv) (bind_cache : List (ℕ × UserCacheEntry))
    (now : ℚ) (user_id : ℕ) :
    List (ℕ × UserCacheEntry) × Option UserCacheEntry × ℕ :=
  if env.status = 200 then
    let display_name :=
      match truthy_str env.nick with
      | some n => n
      | none => env.user_username
    let avatar : Option String :=
      match truthy_str env.member_avatar with
      | some h => some (AVATAR_URL user_id h)
      | none =>
        match truthy_str env.user_avatar with
        | some h => some (AVATAR_URL user_id h)
        | none => none
    (bind_cache, some { username := display_name, avatar := avatar, expires := now + 86400 }, 1)
  else (bind_cache, none, 1)

/-- Embeds `DiscordBridge.get_discord_user` (discord_bridge.py lines
164-200): an unexpired `bind_cache` entry is returned with no HTTP request;
an expired or absent entry falls through to the remote fetch. -/
def get_discord_user (env : UserFetchEnv) (bind_cache : List (ℕ × UserCacheEntry))
    (now : ℚ) (user_id : ℕ) :
    List (ℕ × UserCacheEntry) × Option UserCacheEntry × ℕ :=
  match dictGet bind_cache user_id with
  | some entry =>
    if now < entry.expires then (bind_cache, some entry, 0)
    else fetch_discord_user env bind_cache now user_id
  | none => fetch_discord_user env bind_cache now user_id

/-! ## Image attachment handling (`convert_image` and the image case of
`poll_loop`) -/

/-- What the image case of `poll_loop` uploads. -/
inductive ImageUploadSource
  | converted_webp (quality speed : ℕ)
  | original
deriving DecidableEq

/-- Embeds the `niobot.ImageAttachment` case of the attachment loop
(discord_bridge.py lines 484-494): any image whose `content_type` is not
`image/gif` goes through `self.convert_image(temp_file, speed=0, quality=80)`;
a gif is uploaded from the original file. -/
def poll_image_attachment_plan (attachment : MessageAttachmentPayload) : ImageUploadSource :=
  if attachment.content_type ≠ "image/gif" then .converted_webp 80 0
  else .original

/-- The keyword arguments `DiscordBridge.convert_image` passes to
`PIL.Image.save` (discord_bridge.py lines 295-305): always `format="webp"`,
`quality` as given, `method = 6 - speed`, and `save_all` only for an
animated image when webp animation support is available. -/
structure ConvertKwargs where
  format : String
  quality : ℕ
  method : ℕ
  save_all : Bool
deriving DecidableEq

def convert_image (quality speed : ℕ) (is_animated webp_anim : Bool) : ConvertKwargs :=
  { format := "webp", quality := quality, method := 6 - speed,
    save_all := is_animated && webp_anim }

/-! ## Concrete inputs used by the claim theorems -/

def poll_env_ok : PollEnv := { send_ok := true, new_event_id := "$root1" }

def frame_redact_42 : MessagePayload :=
  { event_type := "redact", message_id := 42, author := "Alice", is_automated := false,
    avatar := "https://cdn.discordapp.com/avatars/1/a.webp", content := "",
    clean_content := "", «at» := 1000, attachments := [], reply_to := none }

def frame_edit_42 : MessagePayload :=
  { frame_redact_42 with
    event_type := "edit", content := "hello world",
    clean_content := "hello world", «at» := 1001 }

def bridge_state_42 : BridgeState :=
  { discord_to_matrix := [(42, "$m1")], matrix_to_discord := [], last_message := none }

/-! ## Claim theorems -/

/-- C3 (code bug): `calculate_backoff` returns `min(0, max(interval, t))`,
which is the degenerate constant `0` for every retry count, instead of the
claimed `min(interval, 2 * 2 ** retries + jitter)` which grows with the
retry count and caps at the interval (here `5/2`, `33/2`, `60` for retries
`0`, `3`, `10`).  The retry counter is reset to zero on any successful
cycle, as claimed, and every failed cycle sleeps the degenerate `0`. -/
theorem C3_backoff_constant_zero :
    (∀ retries : ℕ, calculate_backoff 60 retries (1/2) = 0)
    ∧ spec_backoff 60 0 (1/2) = 5 / 2
    ∧ spec_backoff 60 3 (1/2) = 33 / 2
    ∧ spec_backoff 60 10 (1/2) = 60
    ∧ (∀ retries : ℕ, (kuma_run_cycle 60 retries (1/2) false).1 = 0)
    ∧ (∀ retries : ℕ, (kuma_run_cycle 60 retries (1/2) true).2 = some 0) := by
  have hz : ∀ retries : ℕ, calculate_backoff 60 retries (1/2) = 0 := by
    intro r
    unfold calculate_backoff
    have h0 : (0:ℚ) ≤ max 60 ((2 * 2 ^ r) + 1/2) :=
      le_trans (by norm_num) (le_max_left _ _)
    exact min_eq_left h0
  refine ⟨hz, by norm_num [spec_backoff, min_def], by norm_num [spec_backoff, min_def],
    by norm_num [spec_backoff, min_def], fun _ => rfl, fun r => ?_⟩
  have hstep : (kuma_run_cycle 60 r (1/2) true).2
      = some (calculate_backoff 60 (r + 1) (1/2)) := rfl
  rw [hstep, hz]

/-- C1 (code bug): a `redact` frame for an untracked id is a no-op, and a
tracked `edit` leaves the correlation state unchanged, but an `edit` frame
for an untracked id — in particular one arriving right after a `redact`
cleared the mapping for id 42 — raises `KeyError` at
`self.discord_to_matrix[payload.message_id]` instead of being a logged
no-op. -/
theorem C1_untracked_edit_raises_redact_noop :
    poll_loop_step poll_env_ok bridge_state_42 frame_edit_42 = .ok bridge_state_42
    ∧ poll_loop_step poll_env_ok bridge_state_42 frame_redact_42 = .ok bridge_state_empty
    ∧ poll_loop_step poll_env_ok bridge_state_empty frame_edit_42 = .error "KeyError"
    ∧ poll_loop_step poll_env_ok bridge_state_empty frame_redact_42 = .ok bridge_state_empty :=
  ⟨rfl, rfl, rfl, rfl⟩

/-- C5 counterexample: recording the discord→matrix mapping `42 ↦ "$m1"`
(exactly what `poll_loop` line 430 does) makes `resolve_local` round-trip,
but `resolve_remote` on the local id still returns absent — the store is
not a single bidirectional mapping. -/
theorem C5_one_directional_store :
    resolve_local (record_inbound bridge_state_empty 42 "$m1") 42 = some "$m1"
    ∧ resolve_remote (record_inbound bridge_state_empty 42 "$m1") "$m1" = none :=
  ⟨rfl, rfl⟩

/-- C5 amended: the identity store is two independent unidirectional maps.
Each direction round-trips within itself, forgetting a key clears that
direction, and recording in one direction leaves the other direction's
resolution untouched. -/
theorem C5_directional_roundtrip (s : BridgeState) (d : ℕ) (m : String) :
    resolve_local (record_inbound s d m) d = some m
    ∧ resolve_remote (record_outbound s m d) m = some d
    ∧ resolve_local (forget_inbound s d) d = none
    ∧ resolve_remote (forget_outbound s m) m = none
    ∧ resolve_remote (record_inbound s d m) m = resolve_remote s m
    ∧ resolve_local (record_outbound s m d) d = resolve_local s d :=
  ⟨dictGet_set_self _ _ _, dictGet_set_self _ _ _, dictGet_del_self _ _,
    dictGet_del_self _ _, rfl, rfl⟩

/-- `should_prepend_username` is exactly the negation of the grouping
conditions (a)-(d). -/
theorem should_prepend_username_eq (l : Option LastMessage) (p : MessagePayload) :
    should_prepend_username l p = !(author_grouping_conditions l p) := by
  cases l with
  | none => rfl
  | some last =>
    unfold should_prepend_username author_grouping_conditions
    by_cases hb : p.«at» - last.«at» < 300
    · by_cases hc : p.author = last.author
      · by_cases hd : p.content = ""
        · simp [hb, hc, hd]
        · simp [hb, hc, hd]
      · simp [hb, hc]
    · simp [hb]

def attachment_example : MessageAttachmentPayload :=
  { url := "https://cdn.discordapp.com/attachments/1/2/pic.png",
    proxy_url := "https://media.discordapp.net/attachments/1/2/pic.png",
    filename := "pic.png", size := 2048, width := some 100, height := some 100,
    content_type := "image/png" }

def frame_attachment_only : MessagePayload :=
  { event_type := "create", message_id := 43, author := "Alice", is_automated := false,
    avatar := "https://cdn.discordapp.com/avatars/1/a.webp", content := "",
    clean_content := "", «at» := 1000, attachments := [attachment_example],
    reply_to := none }

/-- C4 counterexample: an attachment-only frame (empty text content) with no
previous message fails the grouping conditions, so the claimed iff demands
an author header, yet the rendered message carries none
(`included_author = false`; the render falls into the
"@author sent N attachments." branch). -/
theorem C4_attachment_only_header :
    (generate_matrix_content id none none frame_attachment_only none).included_author = false
    ∧ author_grouping_conditions none frame_attachment_only = false
    ∧ (generate_matrix_content id none none frame_attachment_only none).included_author
        ≠ !(author_grouping_conditions none frame_attachment_only) :=
  ⟨rfl, rfl, by decide⟩

/-- C4 amended: the rendered message includes the author header iff the
message has non-empty text content AND NOT all of: a previous message
exists, it is under the 300 s window, and it has the same author.  (For
non-empty content this coincides with the claimed iff; for empty content
the header is never included.) -/
theorem C4_included_author_iff (md_to_html : String → String) (avatar_mxc : Option String)
    (l : Option LastMessage) (p : MessagePayload) (fa : Option Bool) :
    (generate_matrix_content md_to_html avatar_mxc l p fa).included_author
      = (decide (p.content ≠ "") && !(author_grouping_conditions l p)) := by
  unfold generate_matrix_content
  by_cases hd : p.content = ""
  · by_cases ha : p.attachments = []
    · simp [hd, ha]
    · simp [hd, ha]
  · simpa [hd] using should_prepend_username_eq l p

def dispatch_env_no_wait : DispatchEnv :=
  { webhook_url := some "https://discord.example/api/webhooks/1/t",
    webhook_wait := some false, webhook_status := 204, webhook_response_id := 999,
    fallback_status := 201, fallback_detail := "" }

def dispatch_env_fallback : DispatchEnv :=
  { webhook_url := none, webhook_wait := none, webhook_status := 0,
    webhook_response_id := 0, fallback_status := 201, fallback_detail := "" }

/-- C2 counterexample: a message delivered successfully over the webhook
path with `webhook_wait` left at its default (not `True`) records no
identity mapping, and a message delivered successfully over the fallback
path (201) records no identity mapping either. -/
theorem C2_success_without_record :
    (dispatch_outbound dispatch_env_no_wait bridge_state_empty "$e1" "alice" 1000).2
      = .webhook_sent
    ∧ resolve_remote
        (dispatch_outbound dispatch_env_no_wait bridge_state_empty "$e1" "alice" 1000).1 "$e1"
      = none
    ∧ (dispatch_outbound dispatch_env_fallback bridge_state_empty "$e1" "alice" 1000).2
      = .fallback_sent
    ∧ resolve_remote
        (dispatch_outbound dispatch_env_fallback bridge_state_empty "$e1" "alice" 1000).1 "$e1"
      = none :=
  ⟨rfl, rfl, rfl, rfl⟩

/-- The fallback branch never touches the correlation state. -/
theorem dispatch_fallback_state (env : DispatchEnv) (s : BridgeState) :
    (dispatch_fallback env s).1 = s := by
  unfold dispatch_fallback
  split_ifs <;> rfl

/-- C2 amended: the identity mapping for the originating event is recorded
iff the webhook path was configured, its POST returned 2xx, and the
`webhook_wait` config entry is `True`; in every other case — including a
successful fallback delivery — the stored resolution is unchanged. -/
theorem C2_record_iff_webhook_wait (env : DispatchEnv) (s : BridgeState)
    (event_id sender : String) (now : ℚ) :
    resolve_remote (dispatch_outbound env s event_id sender now).1 event_id
      = if env.webhook_url.isSome = true ∧ in_2xx env.webhook_status = true
            ∧ env.webhook_wait = some true
        then some env.webhook_response_id
        else resolve_remote s event_id := by
  by_cases h1 : env.webhook_url.isSome = true
  · by_cases h2 : in_2xx env.webhook_status = true
    · by_cases h3 : env.webhook_wait = some true
      · rw [if_pos ⟨h1, h2, h3⟩]
        unfold dispatch_outbound
        simp only [h1, h2, h3, if_true]
        exact dictGet_set_self _ _ _
      · rw [if_neg (fun hc => h3 hc.2.2)]
        unfold dispatch_outbound
        simp only [h1, h2, h3, if_true, if_false]
        rfl
    · rw [if_neg (fun hc => h2 hc.2.1)]
      unfold dispatch_outbound
      simp only [h1, h2, if_true, if_false, Bool.false_eq_true]
      rw [dispatch_fallback_state]
  · rw [if_neg (fun hc => h1 hc.1)]
    unfold dispatch_outbound
    simp only [h1, if_false, Bool.false_eq_true]
    rw [dispatch_fallback_state]

def redaction_state : BridgeState :=
  { discord_to_matrix := [], matrix_to_discord := [("$e1", 99)], last_message := none }

/-- C6 counterexample: redacting the bridged message `$e1` with reason
`"spam"` produces an edit (PATCH) call with the bounded notice — but the
identity mapping is NOT forgotten: the original entry `$e1 ↦ 99` survives
and the redaction's own event id is additionally aliased to 99. -/
theorem C6_reason_redaction_keeps_mapping :
    real_on_redaction redaction_state
        { redacts := "$e1", event_id := "$e2", reason := some "spam" }
      = .ok ({ redaction_state with matrix_to_discord := [("$e2", 99), ("$e1", 99)] },
        [WebhookCall.patch 99 "*Message was redacted: spam*"])
    ∧ resolve_remote
        { redaction_state with matrix_to_discord := [("$e2", 99), ("$e1", 99)] } "$e1"
      = some 99 :=
  ⟨rfl, rfl⟩

/-- C6 amended: for a tracked redaction, a non-empty reason produces exactly
one PATCH (no DELETE) carrying the bounded notice (at most 1924 characters)
and retains the identity mapping, additionally aliasing the redaction's
event id to the same remote id; only a redaction without reason produces a
DELETE and forgets the mapping (exactly once). -/
theorem C6_redaction_behaviour (s : BridgeState) (e1 e2 : String) (d : ℕ) (reason : String)
    (hreason : reason ≠ "") (hmap : dictGet s.matrix_to_discord e1 = some d) :
    real_on_redaction s { redacts := e1, event_id := e2, reason := some reason }
        = .ok ({ s with matrix_to_discord := dictSet s.matrix_to_discord e2 d },
          [WebhookCall.patch d (redaction_notice reason)])
    ∧ resolve_remote { s with matrix_to_discord := dictSet s.matrix_to_discord e2 d } e1
        = some d
    ∧ (redaction_notice reason).length ≤ 1924
    ∧ real_on_redaction s { redacts := e1, event_id := e2, reason := none }
        = .ok ({ s with matrix_to_discord := dictDel s.matrix_to_discord e1 },
          [WebhookCall.delete d])
    ∧ resolve_remote { s with matrix_to_discord := dictDel s.matrix_to_discord e1 } e1
        = none := by
  refine ⟨?_, ?_, ?_, ?_, dictGet_del_self _ _⟩
  · unfold real_on_redaction
    rw [hmap]
    simp only [Option.isSome_some, if_true, hreason, ne_eq, not_false_iff, if_pos]
    unfold edit_webhook_message
    rw [hmap]
  · show dictGet (dictSet s.matrix_to_discord e2 d) e1 = some d
    by_cases he : e1 = e2
    · subst he
      exact dictGet_set_self _ _ _
    · rw [dictGet_set_ne _ _ _ _ he]
      exact hmap
  · unfold redaction_notice
    rw [String.length_append, String.length_append]
    have h1 : ("*Message was redacted: " : String).length = 23 := rfl
    have h2 : ("*" : String).length = 1 := rfl
    have h3 : (strTake reason 1900).length ≤ 1900 := by
      show (reason.data.take 1900).length ≤ 1900
      rw [List.length_take]
      exact min_le_left _ _
    omega
  · unfold real_on_redaction
    rw [hmap]
    simp only [Option.isSome_some, if_true]
    unfold redact_webhook_message
    rw [hmap]

/-- C6 witness: the amended theorem applied at the concrete redaction of
`$e1 ↦ 99` with reason `"spam"`. -/
theorem C6_redaction_behaviour_witness :
    real_on_redaction redaction_state
        { redacts := "$e1", event_id := "$e2", reason := some "spam" }
        = .ok ({ redaction_state with
            matrix_to_discord := dictSet redaction_state.matrix_to_discord "$e2" 99 },
          [WebhookCall.patch 99 (redaction_notice "spam")])
    ∧ resolve_remote { redaction_state with
          matrix_to_discord := dictSet redaction_state.matrix_to_discord "$e2" 99 } "$e1"
        = some 99
    ∧ (redaction_notice "spam").length ≤ 1924
    ∧ real_on_redaction redaction_state
        { redacts := "$e1", event_id := "$e2", reason := none }
        = .ok ({ redaction_state with
            matrix_to_discord := dictDel redaction_state.matrix_to_discord "$e1" },
          [WebhookCall.delete 99])
    ∧ resolve_remote { redaction_state with
          matrix_to_discord := dictDel redaction_state.matrix_to_discord "$e1" } "$e1"
        = none :=
  C6_redaction_behaviour redaction_state "$e1" "$e2" 99 "spam" (by decide) rfl

def cached_url : String := "https://cdn.discordapp.com/avatars/7/abc.webp?size=256"

def image_cache_example : List (String × String) :=
  [(cached_url, "mxc://example.org/cached")]

def cached_attachment : MessageAttachmentPayload :=
  { url := cached_url, proxy_url := cached_url, filename := "abc.webp", size := 1024,
    width := none, height := none, content_type := "image/webp" }

/-- C7 counterexample: a source URL with an existing asset-cache entry,
referenced as a message attachment, is still downloaded — the attachment
loop of `poll_loop` performs one GET to it, because that loop never
consults `image_cache`. -/
theorem C7_attachment_redownloaded :
    dictGet image_cache_example cached_attachment.url = some "mxc://example.org/cached"
    ∧ attachment_url_gets image_cache_example cached_attachment = 1 :=
  ⟨rfl, rfl⟩

/-- C7 amended: a URL with an existing cache entry served through
`get_image_from_cache` (avatars) performs zero GETs, reuses the stored
handle and leaves the cache unchanged (write-once); but the attachment
downloads of `poll_loop` do not consult the cache: any non-`mxc://`
attachment URL incurs one GET on every relay. -/
theorem C7_cache_hit_no_fetch (env : CacheEnv) (image_cache : List (String × String))
    (http mxc : String) (attachment : MessageAttachmentPayload)
    (hhit : dictGet image_cache http = some mxc)
    (hatt : starts_with_mxc attachment.url = false) :
    get_image_from_cache env image_cache http = (image_cache, some mxc, 0)
    ∧ attachment_url_gets image_cache attachment = 1 := by
  constructor
  · unfold get_image_from_cache
    rw [hhit]
  · unfold attachment_url_gets
    rw [hatt]
    rfl

/-- C7 witness: the amended theorem applied at the cached avatar URL,
referenced both through the cache and as an attachment. -/
theorem C7_cache_hit_no_fetch_witness :
    get_image_from_cache { fetch_status := 200, uploaded_mxc := "mxc://example.org/fresh" }
        image_cache_example cached_url
      = (image_cache_example, some "mxc://example.org/cached", 0)
    ∧ attachment_url_gets image_cache_example cached_attachment = 1 :=
  C7_cache_hit_no_fetch { fetch_status := 200, uploaded_mxc := "mxc://example.org/fresh" }
    image_cache_example cached_url "mxc://example.org/cached" cached_attachment rfl rfl

def user_fetch_ok : UserFetchEnv :=
  { status := 200, nick := none, user_username := "alice", member_avatar := none,
    user_avatar := some "abc" }

def user_fetch_fail : UserFetchEnv :=
  { user_fetch_ok with status := 404 }

/-- C8 (code bug): a successful `get_discord_user` fetch returns the built
identity but never assigns `self.bind_cache[user_id]`, so the cache is
still empty and a second call — at any later time — performs another HTTP
request (count 1, not 0) instead of hitting the memo.  A failed fetch does
return absent without raising, and the caller then keeps the natively-known
sender, as claimed. -/
theorem C8_user_cache_never_written :
    get_discord_user user_fetch_ok [] 1000 7
      = ([], some (UserCacheEntry.mk "alice" (some (AVATAR_URL 7 "abc")) (1000 + 86400)), 1)
    ∧ get_discord_user user_fetch_ok [] 2000 7
      = ([], some (UserCacheEntry.mk "alice" (some (AVATAR_URL 7 "abc")) (2000 + 86400)), 1)
    ∧ AVATAR_URL 7 "abc" = "https://cdn.discordapp.com/avatars/7/abc.webp?size=256"
    ∧ (1000 : ℚ) + 86400 = 87400
    ∧ get_discord_user user_fetch_fail [] 1000 7 = ([], none, 1)
    ∧ resolve_outbound_sender "@alice:example.org" none = "@alice:example.org" :=
  ⟨rfl, rfl, by decide, by norm_num, rfl, rfl⟩

def gif_attachment : MessageAttachmentPayload :=
  { url := "https://cdn.discordapp.com/attachments/1/2/anim.gif",
    proxy_url := "https://media.discordapp.net/attachments/1/2/anim.gif",
    filename := "anim.gif", size := 4096, width := some 64, height := some 64,
    content_type := "image/gif" }

def png_attachment : MessageAttachmentPayload :=
  { gif_attachment with
    url := "https://cdn.discordapp.com/attachments/1/2/pic.png",
    proxy_url := "https://media.discordapp.net/attachments/1/2/pic.png",
    filename := "pic.png", content_type := "image/png" }

/-- C9: an `image/gif` attachment is uploaded from the original file (never
passed through `convert_image`), an `image/png` attachment is always passed
through `convert_image(speed=0, quality=80)`, and `convert_image` targets
the compressed web format `webp` (preserving animation frames when the
image is animated and webp animation support is present). -/
theorem C9_gif_preserved_png_transcoded (attachment : MessageAttachmentPayload) :
    (attachment.content_type = "image/gif"
      → poll_image_attachment_plan attachment = .original)
    ∧ (attachment.content_type = "image/png"
      → poll_image_attachment_plan attachment = .converted_webp 80 0)
    ∧ (convert_image 80 0 false false).format = "webp"
    ∧ (convert_image 80 0 true true).save_all = true := by
  refine ⟨fun h => ?_, fun h => ?_, rfl, rfl⟩
  · unfold poll_image_attachment_plan
    rw [h]
    rfl
  · unfold poll_image_attachment_plan
    rw [h]
    rfl

/-- C9 witness: the theorem applied at a concrete gif and a concrete png
attachment. -/
theorem C9_gif_preserved_png_transcoded_witness :
    poll_image_attachment_plan gif_attachment = ImageUploadSource.original
    ∧ poll_image_attachment_plan png_attachment = ImageUploadSource.converted_webp 80 0 :=
  ⟨(C9_gif_preserved_png_transcoded gif_attachment).1 rfl,
    (C9_gif_preserved_png_transcoded png_attachment).2.1 rfl⟩

/-- C10: the `username` field of the webhook body is `payload.sender[:32]` —
at most 32 characters, and a prefix of the resolved sender name. -/
theorem C10_username_truncated (message sender : String) (avatar : Option String) :
    (webhook_body message sender avatar).username.length ≤ 32
    ∧ ∃ rest : List Char,
        (webhook_body message sender avatar).username.data ++ rest = sender.data := by
  constructor
  · show (sender.data.take 32).length ≤ 32
    rw [List.length_take]
    exact min_le_left _ _
  · exact ⟨sender.data.drop 32, List.take_append_drop 32 sender.data⟩

end Philip
